import Mathlib

/-!
Verification of the ConTXT content-to-chunk pipeline.

Shallow embedding of the Python sources under `Backend/app`:
* `processors/privacy_processor.py` — PII redaction (`PrivacyCompliantProcessor`):
  the five `PII_PATTERNS` regexes are hand-compiled to executable matchers that
  reproduce Python `re` semantics (leftmost scan, greedy quantifiers with
  backtracking, `\b` word boundaries) for these particular patterns.
* `processors/text_processor.py` — `_split_text` chunking and the chunk
  metadata produced by `process`.
* `processors/markdown_processor.py` — `_extract_headers` and
  `_structure_aware_split`.
* `processors/factory.py` — processor selection.
* `core/ingestion.py` — the in-memory job store, `_update_job_status`,
  `get_status`, and the milestone updates issued by the `_process_*` flows.

Strings are modelled as `List Char` internally (`String` at the interfaces);
ASCII inputs only, matching every input the claims mention.  `\w`, `\d`, `\s`
are modelled by their ASCII parts, which agree with Python on ASCII text.
-/

namespace ConTXT

/-! ### Character classes (ASCII fragments of Python `\w`, `\d`, `\s`) -/

def isWordChar (c : Char) : Bool :=
  (('a' ≤ c && c ≤ 'z') || ('A' ≤ c && c ≤ 'Z') || ('0' ≤ c && c ≤ '9') || c = '_')

def isDigitChar (c : Char) : Bool :=
  ('0' ≤ c && c ≤ '9')

def isSpaceChar (c : Char) : Bool :=
  (c = ' ' || c = '\t' || c = '\n' || c = '\x0d' || c = '\x0b' || c = '\x0c')

/-- Character class `[A-Za-z0-9._%+-]` (the e-mail local part). -/
def isLocalChar (c : Char) : Bool :=
  (('a' ≤ c && c ≤ 'z') || ('A' ≤ c && c ≤ 'Z') || ('0' ≤ c && c ≤ '9') ||
    c = '.' || c = '_' || c = '%' || c = '+' || c = '-')

/-- Character class `[A-Za-z0-9.-]` (the e-mail domain part). -/
def isDomainChar (c : Char) : Bool :=
  (('a' ≤ c && c ≤ 'z') || ('A' ≤ c && c ≤ 'Z') || ('0' ≤ c && c ≤ '9') ||
    c = '.' || c = '-')

/-- Character class `[A-Z|a-z]` (the e-mail TLD part; `|` is a literal member). -/
def isTldChar (c : Char) : Bool :=
  (('a' ≤ c && c ≤ 'z') || ('A' ≤ c && c ≤ 'Z') || c = '|')

/-- Character class `[\s.-]` (phone-number separators). -/
def isPhoneSepChar (c : Char) : Bool :=
  (isSpaceChar c || c = '.' || c = '-')

/-! ### Regex-matcher infrastructure -/

/-- Length of the maximal run of `cls`-characters at the front of a list. -/
def runLenFrom (cls : Char → Bool) : List Char → Nat
  | [] => 0
  | c :: rest => if cls c then runLenFrom cls rest + 1 else 0

/-- Length of the maximal run of `cls`-characters starting at position `p`. -/
def runLen (s : List Char) (p : Nat) (cls : Char → Bool) : Nat :=
  runLenFrom cls (s.drop p)

/-- Python `\b`: positions where exactly one neighbour is a word character. -/
def wordBoundary (s : List Char) (i : Nat) : Bool :=
  let left :=
    match i with
    | 0 => false
    | j + 1 =>
      match s.get? j with
      | some c => isWordChar c
      | none => false
  let right :=
    match s.get? i with
    | some c => isWordChar c
    | none => false
  left != right

/-- The list `[n, n-1, ..., 1, 0]`: backtracking tries longer candidates first. -/
def countdown : Nat → List Nat
  | 0 => [0]
  | n + 1 => (n + 1) :: countdown n

/-- `some (i+k)` when the `k` characters starting at `i` are all digits. -/
def digitsEnd (s : List Char) (i k : Nat) : Option Nat :=
  let seg := (s.drop i).take k
  if seg.length = k && seg.all isDigitChar then some (i + k) else none

/-- Positions to try, in backtracking order, for an optional one-character
class (`X?` prefers consuming the character). -/
def optChoice (s : List Char) (i : Nat) (cls : Char → Bool) : List Nat :=
  match s.get? i with
  | some c => if cls c then [i + 1, i] else [i]
  | none => [i]

/-- A matcher takes the text and a start position and returns the end position
of the (backtracking-first) match there, if any. -/
abbrev Matcher := List Char → Nat → Option Nat

/-! ### The five `PII_PATTERNS` regexes, hand-compiled

Each follows Python `re` left-to-right backtracking for the concrete pattern.
-/

/-- `\b[A-Za-z0-9._%+-]+@[A-Za-z0-9.-]+\.[A-Z|a-z]{2,}\b`.
The local-part run is forced maximal (`@` is not a local char); the domain
backtracks over the positions of `.` inside the maximal domain run; the TLD
backtracks from its maximal run down to length 2 looking for a final `\b`. -/
def emailMatch : Matcher := fun s p =>
  if wordBoundary s p then
    let r1 := runLen s p isLocalChar
    if r1 = 0 then none
    else
      let i := p + r1
      if s.get? i = some '@' then
        let dstart := i + 1
        let r2 := runLen s dstart isDomainChar
        if r2 = 0 then none
        else
          (countdown (r2 - 1)).findSome? fun d =>
            if 1 ≤ d ∧ s.get? (dstart + d) = some '.' then
              let j := dstart + d + 1
              let r3 := runLen s j isTldChar
              (countdown r3).findSome? fun t =>
                if 2 ≤ t ∧ wordBoundary s (j + t) then some (j + t) else none
            else none
      else none
  else none

/-- Tail of the phone pattern: `\(?\d{3}\)?[\s.-]?\d{3}[\s.-]?\d{4}\b`. -/
def phoneCore (s : List Char) (i0 : Nat) : Option Nat :=
  (optChoice s i0 (fun c => c = '(')).findSome? fun i1 =>
    (digitsEnd s i1 3).bind fun i2 =>
      (optChoice s i2 (fun c => c = ')')).findSome? fun i3 =>
        (optChoice s i3 isPhoneSepChar).findSome? fun i4 =>
          (digitsEnd s i4 3).bind fun i5 =>
            (optChoice s i5 isPhoneSepChar).findSome? fun i6 =>
              (digitsEnd s i6 4).bind fun i7 =>
                if wordBoundary s i7 then some i7 else none

/-- `\b(\+\d{1,2}\s?)?\(?\d{3}\)?[\s.-]?\d{3}[\s.-]?\d{4}\b`.
The optional country-code group is preferred present, `\d{1,2}` prefers two
digits, `\s?` prefers consuming. -/
def phoneMatch : Matcher := fun s p =>
  if wordBoundary s p then
    let withCC : Option Nat :=
      if s.get? p = some '+' then
        [2, 1].findSome? fun k =>
          (digitsEnd s (p + 1) k).bind fun iq =>
            (optChoice s iq isSpaceChar).findSome? fun i0 => phoneCore s i0
      else none
    withCC.orElse fun _ => phoneCore s p
  else none

/-- `\b\d{3}-\d{2}-\d{4}\b` (fully deterministic). -/
def ssnMatch : Matcher := fun s p =>
  if wordBoundary s p then
    (digitsEnd s p 3).bind fun i1 =>
      if s.get? i1 = some '-' then
        (digitsEnd s (i1 + 1) 2).bind fun i2 =>
          if s.get? i2 = some '-' then
            (digitsEnd s (i2 + 1) 4).bind fun i3 =>
              if wordBoundary s i3 then some i3 else none
          else none
      else none
  else none

/-- The repeated group of the card pattern: `(?:\d{4}[- ]?){k}` followed by the
final `\d{4}\b`, with each `[- ]?` preferred present. -/
def ccGroups (s : List Char) : Nat → Nat → Option Nat
  | 0, i => (digitsEnd s i 4).bind fun j => if wordBoundary s j then some j else none
  | k + 1, i =>
    (digitsEnd s i 4).bind fun j =>
      (optChoice s j (fun c => c = '-' || c = ' ')).findSome? fun j2 => ccGroups s k j2

/-- `\b(?:\d{4}[- ]?){3}\d{4}\b`. -/
def ccMatch : Matcher := fun s p =>
  if wordBoundary s p then ccGroups s 3 p else none

/-- Octets of the IP pattern: `\d{1,3}` is greedy with backtracking; the first
three are each followed by a literal `.`, the last by `\b`. -/
def ipOctets (s : List Char) : Nat → Nat → Option Nat
  | 0, i =>
    let r := min 3 (runLen s i isDigitChar)
    (countdown r).findSome? fun d =>
      if 1 ≤ d ∧ wordBoundary s (i + d) then some (i + d) else none
  | k + 1, i =>
    let r := min 3 (runLen s i isDigitChar)
    (countdown r).findSome? fun d =>
      if 1 ≤ d ∧ s.get? (i + d) = some '.' then ipOctets s k (i + d + 1) else none

/-- `\b\d{1,3}\.\d{1,3}\.\d{1,3}\.\d{1,3}\b`. -/
def ipMatch : Matcher := fun s p =>
  if wordBoundary s p then ipOctets s 3 p else none

/-! ### `finditer` and marker replacement -/

/-- Python `finditer`: scan left to right, emit non-overlapping matches,
resume after each match (all five patterns only produce non-empty matches).
The `fuel` argument makes the recursion structural so it reduces in the
kernel; the scan position grows by at least one per step, so
`s.length + 1` fuel is never exhausted. -/
def findMatchesAux (m : Matcher) (s : List Char) : Nat → Nat → List (Nat × Nat)
  | 0, _ => []
  | fuel + 1, p =>
    if p < s.length then
      match m s p with
      | some e => (p, e) :: findMatchesAux m s fuel (max e (p + 1))
      | none => findMatchesAux m s fuel (p + 1)
    else []

def findMatches (m : Matcher) (s : List Char) : List (Nat × Nat) :=
  findMatchesAux m s (s.length + 1) 0

/-- `text = text[:start] + replacement + text[end:]` applied over the match
list in reverse span order, exactly as `_redact_text` does. -/
def spliceAll (marker : List Char) (ms : List (Nat × Nat)) (s : List Char) : List Char :=
  ms.foldr (fun se t => t.take se.1 ++ marker ++ t.drop se.2) s

/-! ### `PrivacyCompliantProcessor` (privacy_processor.py) -/

/-- The `PII_PATTERNS` table, in Python dict insertion order. -/
def PII_PATTERNS : List (String × Matcher) :=
  [("email", emailMatch), ("phone", phoneMatch), ("ssn", ssnMatch),
    ("credit_card", ccMatch), ("ip_address", ipMatch)]

/-- `_redact_text` over `List Char`: for each compiled pattern in order, list
its matches; when non-empty, record the count and replace each match (in
reverse span order) by the marker made of a left bracket, `REDACTED:`, the
pattern type, and a right bracket. -/
def redactTextL (pats : List (String × Matcher)) (text : List Char) :
    List Char × List (String × Nat) :=
  pats.foldl
    (fun acc pm =>
      let ms := findMatches pm.2 acc.1
      if ms.isEmpty then acc
      else
        (spliceAll ("[REDACTED:" ++ pm.1 ++ "]").toList ms acc.1,
          acc.2 ++ [(pm.1, ms.length)]))
    (text, [])

/-- `_redact_text` at the `str` interface: redacted text plus per-type counts
(`redacted_counts` keeps dict insertion order, i.e. pattern order). -/
def redact_text (pats : List (String × Matcher)) (text : String) :
    String × List (String × Nat) :=
  let r := redactTextL pats text.toList
  (r.1.asString, r.2)

/-- Dict update used for `custom_patterns`: overwrite in place if the key
exists, else append. -/
def upsertPattern (l : List (String × Matcher)) (k : String) (v : Matcher) :
    List (String × Matcher) :=
  if (l.lookup k).isSome then
    l.map fun kv => if kv.1 = k then (k, v) else kv
  else l ++ [(k, v)]

/-- The state of a `PrivacyCompliantProcessor` that the claims depend on:
the `redact_pii` flag and the compiled `patterns` dict. -/
structure PrivacyCompliantProcessor where
  redact_pii : Bool
  patterns : List (String × Matcher)

/-- `__init__`: keep the `PII_PATTERNS` entries selected by `pii_types`
(Python truthiness: `None` or an empty list select all), then apply
`custom_patterns` as dict updates. -/
def mkPrivacyProcessor (redact_pii : Bool) (pii_types : Option (List String))
    (custom_patterns : List (String × Matcher)) : PrivacyCompliantProcessor :=
  let allTypes := PII_PATTERNS.map Prod.fst
  let selected :=
    match pii_types with
    | some l => if l.isEmpty then allTypes else l
    | none => allTypes
  let pats := PII_PATTERNS.filter fun kv => selected.contains kv.1
  { redact_pii := redact_pii,
    patterns := custom_patterns.foldl (fun acc kv => upsertPattern acc kv.1 kv.2) pats }

/-- `get_embeddings`: redact before embedding when `redact_pii` is set, then
delegate to the wrapped base processor's embedding capability (modelled as a
function argument). -/
def PrivacyCompliantProcessor.get_embeddings (p : PrivacyCompliantProcessor)
    (baseEmbed : String → List Int) (text : String) : List Int :=
  if p.redact_pii then baseEmbed (redact_text p.patterns text).1
  else baseEmbed text

/-! ### `TextProcessor` (text_processor.py) -/

/-- The list `[hi, hi-1, ..., lo]` (empty when `hi < lo`). -/
def countdownFrom (hi lo : Nat) : List Nat :=
  (List.range' lo (hi + 1 - lo)).reverse

/-- Python `text.rfind(sub, start, stop)`: highest position of `sub` inside
`text[start:stop]`, `none` when absent. -/
def pyRFind (s sub : List Char) (start stop : Nat) : Option Nat :=
  let stop' := min stop s.length
  if start + sub.length ≤ stop' then
    (countdownFrom (stop' - sub.length) start).findSome? fun pos =>
      if sub.isPrefixOf (s.drop pos) then some pos else none
  else none

/-- The natural break points `_split_text` looks for, in order. -/
def breakSeparators : List (List Char) :=
  ["\n\n".toList, "\n".toList, ". ".toList, " ".toList]

/-- Adjust a chunk end to the last separator strictly after `start` (first
separator in `breakSeparators` that yields one wins), as in `_split_text`. -/
def adjustEnd (s : List Char) (start end0 : Nat) : Nat :=
  match breakSeparators.findSome? (fun sep =>
      match pyRFind s sep start end0 with
      | some pos => if start < pos then some (pos + sep.length) else none
      | none => none) with
  | some e => e
  | none => end0

/-- The `while start < len(text)` loop of `_split_text`.  `fuel` makes the
recursion structural; in the standard regime (overlap smaller than each
produced chunk) the cursor advances every iteration and `s.length + 1` fuel
is never exhausted.  (With adversarial size/overlap combinations the Python
loop can fail to advance; no claim exercises that regime.)  Note the cursor
step `end - overlap` is truncated Nat subtraction. -/
def splitTextLoop (s : List Char) (chunk_size chunk_overlap : Nat) :
    Nat → Nat → List (List Char)
  | 0, _ => []
  | fuel + 1, start =>
    if start < s.length then
      let end0 := start + chunk_size
      let end1 := if end0 < s.length then adjustEnd s start end0 else end0
      ((s.drop start).take (end1 - start)) ::
        splitTextLoop s chunk_size chunk_overlap fuel (end1 - chunk_overlap)
    else []

/-- `TextProcessor._split_text`: texts no longer than `chunk_size` are
returned whole (as a one-element list); longer texts go through the
greedy loop with separator adjustment and overlap. -/
def split_text (text : String) (chunk_size chunk_overlap : Nat) : List String :=
  if text.length ≤ chunk_size then [text]
  else
    (splitTextLoop text.toList chunk_size chunk_overlap (text.length + 1) 0).map
      List.asString

/-- The per-chunk metadata fields `TextProcessor.process` attaches before
persisting each chunk to the vector store. -/
structure ChunkRec where
  chunk_index : Nat
  chunk_total : Nat
  chunk_id : String
  text_snippet : String
deriving DecidableEq

/-- `chunk[:100] + "..." if len(chunk) > 100 else chunk`. -/
def chunkSnippet (chunk : String) : String :=
  if 100 < chunk.length then (chunk.toList.take 100).asString ++ "..." else chunk

/-- The `for i, chunk in enumerate(chunks)` loop of `TextProcessor.process`:
each chunk gets `chunk_index := i`, `chunk_total := len(chunks)` and
`chunk_id := f-string of document_id, "_chunk_", i`. -/
def chunkRecordsAux (document_id : String) (total : Nat) :
    Nat → List String → List ChunkRec
  | _, [] => []
  | i, c :: rest =>
    { chunk_index := i, chunk_total := total,
      chunk_id := document_id ++ "_chunk_" ++ toString i,
      text_snippet := chunkSnippet c } :: chunkRecordsAux document_id total (i + 1) rest

def processChunkRecords (document_id : String) (chunks : List String) : List ChunkRec :=
  chunkRecordsAux document_id chunks.length 0 chunks

/-- `TextProcessor.process` restricted to what it persists per chunk:
split the content, then attach indices and totals. -/
def TextProcessor.processRecords (content : String) (chunk_size chunk_overlap : Nat)
    (document_id : String) : List ChunkRec :=
  processChunkRecords document_id (split_text content chunk_size chunk_overlap)

/-! ### `MarkdownProcessor` (markdown_processor.py)

`_extract_headers` runs `^(#{1,6})\s+(.+)$` (MULTILINE) via `finditer`;
`_structure_aware_split` splits on six zero-width structural lookaheads and
recombines sections greedily.  Both regexes are hand-compiled below with the
same backtracking discipline as the PII matchers. -/

/-- `^` in MULTILINE mode: start of string or right after a newline. -/
def lineStartAt (s : List Char) : Nat → Bool
  | 0 => true
  | q + 1 => s.get? q = some '\n'

/-- Python `str.strip()` (whitespace both ends). -/
def pyStrip (s : List Char) : List Char :=
  ((s.dropWhile isSpaceChar).reverse.dropWhile isSpaceChar).reverse

/-- Match of `(#{1,6})\s+(.+)$` at a line-start position `p`: the hash run
(1..6, with a following whitespace), then greedy `\s+` backtracking to leave
a non-newline first content character, then the maximal non-newline run as
group 2.  Returns `(level, group2 start, group2 length)`. -/
def headerAt (s : List Char) (p : Nat) : Option (Nat × Nat × Nat) :=
  let h := runLen s p (fun c => c = '#')
  if 1 ≤ h ∧ h ≤ 6 then
    let q0 := p + h
    let w := runLen s q0 isSpaceChar
    if 1 ≤ w then
      match (countdownFrom w 1).findSome? (fun i =>
          let q := q0 + i
          if q < s.length ∧ ¬(s.get? q = some '\n') then some q else none) with
      | some q => some (h, q, runLen s q (fun c => !(c = '\n')))
      | none => none
    else none
  else none

/-- `finditer` for the header pattern: only line starts can match; after a
match, scanning resumes at the match end. -/
def extractHeadersAux (s : List Char) : Nat → Nat → List (Nat × String)
  | 0, _ => []
  | fuel + 1, p =>
    if p < s.length then
      if lineStartAt s p then
        match headerAt s p with
        | some (h, q, r) =>
          (h, (pyStrip ((s.drop q).take r)).asString) ::
            extractHeadersAux s fuel (q + r)
        | none => extractHeadersAux s fuel (p + 1)
      else extractHeadersAux s fuel (p + 1)
    else []

/-- `MarkdownProcessor._extract_headers`: ordered `(level, stripped text)`
pairs. -/
def extract_headers (markdown : String) : List (Nat × String) :=
  extractHeadersAux markdown.toList (markdown.length + 1) 0

/-- Lookahead `(?=^---+$)`: a line of three or more dashes. -/
def dashRuleAt (s : List Char) (p : Nat) : Bool :=
  let r := runLen s p (fun c => c = '-')
  if 3 ≤ r ∧ (p + r = s.length ∨ s.get? (p + r) = some '\n') then true else false

/-- Lookahead `(?=^` + three backticks + `)`. -/
def codeFenceAt (s : List Char) (p : Nat) : Bool :=
  ("\x60\x60\x60".toList).isPrefixOf (s.drop p)

/-- Inner `\s*$` of the blank-line lookahead: only whitespace up to the next
newline or the end of the string. -/
def restBlank (s : List Char) : Nat → Nat → Bool
  | 0, _ => false
  | fuel + 1, j =>
    match s.get? j with
    | none => true
    | some c =>
      if c = '\n' then true
      else if isSpaceChar c then restBlank s fuel (j + 1)
      else false

/-- Lookahead `(?=^\s*\n\s*$)`: greedy `\s*` scans forward; at each newline it
may stop and ask the rest of that line (`\s*$`) to be blank. -/
def blankLineAt (s : List Char) : Nat → Nat → Bool
  | 0, _ => false
  | fuel + 1, i =>
    match s.get? i with
    | none => false
    | some c =>
      if c = '\n' && restBlank s (s.length + 1) (i + 1) then true
      else if isSpaceChar c then blankLineAt s fuel (i + 1)
      else false

/-- Lookahead `(?=^[*-]\s+)`. -/
def listItemAt (s : List Char) (p : Nat) : Bool :=
  match s.get? p, s.get? (p + 1) with
  | some c, some d => (c = '*' || c = '-') && isSpaceChar d
  | _, _ => false

/-- Lookahead `(?=^\d+\.\s+)`. -/
def numberedItemAt (s : List Char) (p : Nat) : Bool :=
  let r := runLen s p isDigitChar
  if 1 ≤ r ∧ s.get? (p + r) = some '.' ∧
      (match s.get? (p + r + 1) with
        | some d => isSpaceChar d
        | none => false) = true then
    true
  else false

/-- A position where the joined structural-separator pattern of
`_structure_aware_split` has a zero-width match. -/
def splitPointAt (s : List Char) (p : Nat) : Bool :=
  lineStartAt s p &&
    ((headerAt s p).isSome || dashRuleAt s p || codeFenceAt s p ||
      blankLineAt s (s.length + 1) p || listItemAt s p || numberedItemAt s p)

/-- All zero-width split positions, ascending (0 to `s.length` inclusive). -/
def mdSplitPoints (s : List Char) : List Nat :=
  (List.range (s.length + 1)).filter (splitPointAt s)

/-- `re.split` at zero-width positions: pieces between consecutive points,
with the leading piece before the first point and the tail after the last. -/
def cutAt (s : List Char) : Nat → List Nat → List (List Char)
  | prev, [] => [s.drop prev]
  | prev, p :: rest => ((s.drop prev).take (p - prev)) :: cutAt s p rest

def mdSections (s : List Char) : List (List Char) :=
  cutAt s 0 (mdSplitPoints s)

/-- The recombination loop of `_structure_aware_split`: accumulate sections
until the budget would be exceeded, then emit the current chunk and seed the
next one with the last `chunk_overlap` characters. -/
def combineSections (chunk_size chunk_overlap : Nat) (sections : List (List Char)) :
    List (List Char) :=
  let step := fun (acc : List (List Char) × List Char) (sec : List Char) =>
    if chunk_size < acc.2.length + sec.length ∧ acc.2 ≠ [] then
      (acc.1 ++ [acc.2], (acc.2.drop (acc.2.length - chunk_overlap)) ++ sec)
    else (acc.1, acc.2 ++ sec)
  let r := sections.foldl step ([], [])
  if r.2 ≠ [] then r.1 ++ [r.2] else r.1

/-- `MarkdownProcessor._structure_aware_split`: texts within the budget are
returned whole; longer texts are split at structural positions and
recombined. -/
def structure_aware_split (text : String) (chunk_size chunk_overlap : Nat) :
    List String :=
  if text.length ≤ chunk_size then [text]
  else
    (combineSections chunk_size chunk_overlap (mdSections text.toList)).map
      List.asString

/-- The concrete markdown of the spec's scenario (§8 of the spec). -/
def demoMarkdown : String := "# Title\n\nBody text.\n\n## Section\n\nMore text."

/-! ### `ProcessorFactory` (factory.py) -/

/-- The processor classes the factory can instantiate. -/
inductive ProcKind where
  | text
  | markdown
  | json
  | csv
  | pdf
  | html
  | image
  | code
deriving DecidableEq

/-- `EXTENSION_MAPPING`. -/
def EXTENSION_MAPPING : List (String × ProcKind) :=
  [(".txt", .text), (".md", .markdown), (".json", .json), (".csv", .csv),
    (".pdf", .pdf), (".html", .html), (".htm", .html),
    (".png", .image), (".jpg", .image), (".jpeg", .image), (".gif", .image),
    (".bmp", .image), (".webp", .image),
    (".py", .code), (".js", .code), (".ts", .code), (".jsx", .code),
    (".tsx", .code), (".java", .code), (".c", .code), (".cpp", .code),
    (".h", .code), (".hpp", .code), (".go", .code), (".rs", .code),
    (".rb", .code), (".php", .code), (".swift", .code), (".kt", .code),
    (".cs", .code)]

/-- `CONTENT_TYPE_MAPPING`. -/
def CONTENT_TYPE_MAPPING : List (String × ProcKind) :=
  [("text/plain", .text), ("text/markdown", .markdown),
    ("application/json", .json), ("text/csv", .csv),
    ("application/pdf", .pdf), ("text/html", .html),
    ("image/png", .image), ("image/jpeg", .image), ("image/gif", .image),
    ("image/bmp", .image), ("image/webp", .image),
    ("text/x-python", .code), ("application/javascript", .code),
    ("text/javascript", .code), ("application/typescript", .code),
    ("text/x-java", .code), ("text/x-c", .code), ("text/x-c++", .code),
    ("text/x-go", .code), ("text/x-rust", .code), ("text/x-ruby", .code),
    ("application/x-php", .code), ("text/x-swift", .code),
    ("text/x-kotlin", .code), ("text/x-csharp", .code)]

/-- The final path component (after the last slash). -/
def pathBasename (path : String) : String :=
  ((path.toList.reverse.takeWhile fun c => !(c = '/')).reverse).asString

/-- `pathlib.Path(...).suffix`: from the last dot of the basename when that
dot is neither the first nor the last character, else the empty string. -/
def pathSuffix (path : String) : String :=
  let name := (pathBasename path).toList
  let dotIdxs := (List.range name.length).filter fun i => name.get? i = some '.'
  match dotIdxs.getLast? with
  | some i => if 0 < i ∧ i < name.length - 1 then (name.drop i).asString else ""
  | none => ""

def toLowerStr (s : String) : String :=
  (s.toList.map Char.toLower).asString

/-- `get_processor_for_file`, reduced to the selection decision: extension
lookup, raising `ValueError` (modelled as `Except.error`) on a miss. -/
def get_processor_for_file (file_path : String) : Except String ProcKind :=
  let extension := toLowerStr (pathSuffix file_path)
  match EXTENSION_MAPPING.lookup extension with
  | some pc => Except.ok pc
  | none => Except.error ("No processor available for file type: " ++ extension)

/-- `get_processor_for_content_type`: content-type lookup, raising on a miss. -/
def get_processor_for_content_type (content_type : String) : Except String ProcKind :=
  match CONTENT_TYPE_MAPPING.lookup content_type with
  | some pc => Except.ok pc
  | none => Except.error ("No processor available for content type: " ++ content_type)

def strContains (s sub : String) : Bool :=
  (List.range (s.toList.length + 1)).any fun i => sub.toList.isPrefixOf (s.toList.drop i)

def pyStripStr (s : String) : String :=
  (pyStrip s.toList).asString

/-- `content.strip().startswith(('<html', '<!DOCTYPE html'))`. -/
def looksHtml (content : String) : Bool :=
  let st := (pyStripStr content).toList
  ("<html".toList.isPrefixOf st) || ("<!DOCTYPE html".toList.isPrefixOf st)

/-- `content.strip().startswith(open brace) and content.strip().endswith(close brace)`. -/
def looksJson (content : String) : Bool :=
  let st := (pyStripStr content).toList
  (st.head? = some '\x7b' && st.getLast? = some '\x7d')

/-- A comma and a newline both occur somewhere. -/
def looksCsv (content : String) : Bool :=
  strContains content "," && strContains content "\n"

/-- A hash-space (or double-hash-space) occurs somewhere. -/
def looksMarkdownSniff (content : String) : Bool :=
  strContains content "# " || strContains content "## "

/-- One of the code keywords occurs somewhere. -/
def looksCode (content : String) : Bool :=
  ["def ", "class ", "function ", "import ", "#include"].any (strContains content)

/-- The string-content sniffing chain of `get_optimal_processor`, ending in
the `TextProcessor` default. -/
def sniffStr (content : String) : ProcKind :=
  if looksHtml content then ProcKind.html
  else if looksJson content then ProcKind.json
  else if looksCsv content then ProcKind.csv
  else if looksMarkdownSniff content then ProcKind.markdown
  else if looksCode content then ProcKind.code
  else ProcKind.text

/-- `get_optimal_processor` on string content: a declared content type that
is in the mapping wins; otherwise the content is sniffed.  This function is
total — every call returns a processor class. -/
def get_optimal_processor_str (content_type : Option String) (content : String) :
    ProcKind :=
  match content_type with
  | some ct =>
    match CONTENT_TYPE_MAPPING.lookup ct with
    | some pc => pc
    | none => sniffStr content
  | none => sniffStr content

/-! ### `IngestionManager` job store (core/ingestion.py) -/

/-- Result payloads are opaque string-keyed dicts here; only Python
truthiness (non-emptiness) of the dict matters to `_update_job_status`. -/
abbrev ResData := List (String × String)

/-- One entry of the in-memory `job_store`.  Timestamps are abstract ticks. -/
structure Job where
  status : String
  progress : Nat
  source_type : String
  source : String
  message : Option String := none
  result : Option ResData := none
  created_at : Nat
  updated_at : Nat
deriving DecidableEq

abbrev JobStore := List (String × Job)

/-- Python truthiness of an optional string (`if status:`): present and
non-empty. -/
def truthyStr : Option String → Bool
  | some s => !s.isEmpty
  | none => false

/-- Python truthiness of an optional dict (`if result:`): present and
non-empty. -/
def truthyRes : Option ResData → Bool
  | some r => !r.isEmpty
  | none => false

/-- The field updates of `_update_job_status` once the job exists: `status`
and `message` and `result` only when truthy, `progress` whenever not `None`,
and `updated_at` unconditionally. -/
def applyJobFields (j : Job) (status : Option String) (progress : Option Nat)
    (message : Option String) (result : Option ResData) (now : Nat) : Job :=
  { j with
    status := if truthyStr status then status.getD j.status else j.status
    progress := progress.getD j.progress
    message := if truthyStr message then message else j.message
    result := if truthyRes result then result else j.result
    updated_at := now }

/-- `IngestionManager._update_job_status`: absent ids return with the store
untouched; otherwise the entry is updated in place. -/
def update_job_status (store : JobStore) (job_id : String) (status : Option String)
    (progress : Option Nat) (message : Option String) (result : Option ResData)
    (now : Nat) : JobStore :=
  if (List.lookup job_id store).isNone then store
  else
    store.map fun kv =>
      if kv.1 = job_id then (kv.1, applyJobFields kv.2 status progress message result now)
      else kv

/-- What `get_status` returns per job (an `IngestionStatus` document). -/
structure IngestionStatus where
  job_id : String
  status : String
  progress : Option Nat
  message : Option String
  result : Option ResData
  created_at : Nat
  updated_at : Nat
deriving DecidableEq

/-- `IngestionManager.get_status`: unknown ids raise
`ValueError("Job not found: ...")` (modelled as `Except.error`); known ids
are packaged into an `IngestionStatus`. -/
def get_status (store : JobStore) (job_id : String) : Except String IngestionStatus :=
  match List.lookup job_id store with
  | none => Except.error ("Job not found: " ++ job_id)
  | some j =>
    Except.ok
      { job_id := job_id, status := j.status, progress := some j.progress,
        message := j.message, result := j.result,
        created_at := j.created_at, updated_at := j.updated_at }

/-! ### The status updates issued by the `_process_*` flows -/

/-- Argument tuple of one `_update_job_status` call site. -/
structure UpdateCall where
  status : Option String := none
  progress : Option Nat := none
  message : Option String := none
  result : Option ResData := none

def applyCall (store : JobStore) (job_id : String) (u : UpdateCall) (now : Nat) :
    JobStore :=
  update_job_status store job_id u.status u.progress u.message u.result now

def applyCalls (store : JobStore) (job_id : String) (us : List UpdateCall)
    (now : Nat) : JobStore :=
  us.foldl (fun st u => applyCall st job_id u now) store

/-- The milestone updates of `_process_url` on its success path, in order. -/
def urlMilestones (res : ResData) : List UpdateCall :=
  [{ progress := some 10, message := some "Fetching URL content" },
    { progress := some 30, message := some "Processing content" },
    { progress := some 70, message := some "Storing processed content" },
    { status := some "completed", progress := some 100,
      message := some "URL processing completed", result := some res }]

/-- The milestone updates of `_process_file` on its success path. -/
def fileMilestones (res : ResData) : List UpdateCall :=
  [{ progress := some 10, message := some "Saving file" },
    { progress := some 30, message := some "Processing file" },
    { progress := some 70, message := some "Storing processed content" },
    { status := some "completed", progress := some 100,
      message := some "File processing completed", result := some res }]

/-- The milestone updates of `_process_text` on its success path. -/
def textMilestones (res : ResData) : List UpdateCall :=
  [{ progress := some 30, message := some "Processing text" },
    { progress := some 70, message := some "Storing processed content" },
    { status := some "completed", progress := some 100,
      message := some "Text processing completed", result := some res }]

/-- The milestone updates of `_process_with_privacy` on its success path. -/
def privacyMilestones (res : ResData) : List UpdateCall :=
  [{ progress := some 10, message := some "Applying privacy protection" },
    { progress := some 70, message := some "Storing privacy-protected content" },
    { status := some "completed", progress := some 100,
      message := some "Privacy-protected processing completed", result := some res }]

/-- The `except`-handler update of each of the four flows: status `failed`,
progress `0.0`, and a flow-specific failure message. -/
def failureCall (msg : String) : UpdateCall :=
  { status := some "failed", progress := some 0, message := some msg }

/-- Store states over a sequence of update calls (initial store included). -/
def storeStates (store : JobStore) (job_id : String) (us : List UpdateCall)
    (now : Nat) : List JobStore :=
  List.scanl (fun st u => applyCall st job_id u now) store us

/-- The progress values recorded for `job_id` over a run, one per store
state in which the job exists. -/
def recordedProgress (store : JobStore) (job_id : String) (us : List UpdateCall)
    (now : Nat) : List Nat :=
  (storeStates store job_id us now).filterMap fun st =>
    (List.lookup job_id st).map Job.progress

/-- Progress evolution viewed on the call arguments alone: each call with a
`progress` argument overwrites the running value. -/
def progressStep (cur : Nat) (u : UpdateCall) : Nat :=
  u.progress.getD cur

def progressTrace (init : Nat) (us : List UpdateCall) : List Nat :=
  List.scanl progressStep init us

/-- Monotone non-decrease of a recorded progress sequence, executably. -/
def nonDecreasing : List Nat → Bool
  | [] => true
  | [_] => true
  | a :: b :: rest => Nat.ble a b && nonDecreasing (b :: rest)

/-- A fresh job as each `ingest_*` entry point initialises it. -/
def freshJob (source_type source : String) (now : Nat) : Job :=
  { status := "processing", progress := 0, source_type := source_type,
    source := source, created_at := now, updated_at := now }

/-! ### Helper lemmas -/

lemma chunkRecordsAux_map_index (d : String) (total : Nat) :
    ∀ (cs : List String) (i : Nat),
      (chunkRecordsAux d total i cs).map ChunkRec.chunk_index = List.range' i cs.length := by
  intro cs
  induction cs with
  | nil => intro i; simp [chunkRecordsAux]
  | cons c rest ih =>
    intro i
    simp [chunkRecordsAux, List.range'_succ, ih]

lemma chunkRecordsAux_length (d : String) (total : Nat) :
    ∀ (cs : List String) (i : Nat), (chunkRecordsAux d total i cs).length = cs.length := by
  intro cs
  induction cs with
  | nil => intro i; simp [chunkRecordsAux]
  | cons c rest ih => intro i; simp [chunkRecordsAux, ih]

lemma chunkRecordsAux_total (d : String) (total : Nat) :
    ∀ (cs : List String) (i : Nat) (r : ChunkRec),
      r ∈ chunkRecordsAux d total i cs → r.chunk_total = total := by
  intro cs
  induction cs with
  | nil => intro i r hr; simp [chunkRecordsAux] at hr
  | cons c rest ih =>
    intro i r hr
    simp only [chunkRecordsAux, List.mem_cons] at hr
    rcases hr with hr | hr
    · rw [hr]
    · exact ih (i + 1) r hr

lemma lookup_map_update (l : List (String × Job)) (k : String) (f : Job → Job) :
    List.lookup k (l.map fun kv => if kv.1 = k then (kv.1, f kv.2) else kv) =
      (List.lookup k l).map f := by
  induction l with
  | nil => simp
  | cons a t ih =>
    obtain ⟨ka, va⟩ := a
    simp only [List.map_cons]
    by_cases hak : ka = k
    · subst hak
      have h1 : (if (ka, va).1 = ka then ((ka, va).1, f (ka, va).2) else (ka, va)) =
          (ka, f va) := by simp
      rw [h1]
      simp [List.lookup, ih]
    · have hbeq : (k == ka) = false := beq_eq_false_iff_ne.mpr (Ne.symm hak)
      have h1 : (if (ka, va).1 = k then ((ka, va).1, f (ka, va).2) else (ka, va)) =
          (ka, va) := by simp [hak]
      rw [h1]
      simp [List.lookup, hbeq, ih]

lemma lookup_applyCall (store : JobStore) (job_id : String) (u : UpdateCall)
    (now : Nat) :
    List.lookup job_id (applyCall store job_id u now) =
      (List.lookup job_id store).map fun j =>
        applyJobFields j u.status u.progress u.message u.result now := by
  unfold applyCall update_job_status
  by_cases h : (List.lookup job_id store).isNone
  · rw [if_pos h]
    rw [Option.isNone_iff_eq_none] at h
    simp [h]
  · rw [if_neg h]
    exact lookup_map_update store job_id
      (fun j => applyJobFields j u.status u.progress u.message u.result now)

lemma recordedProgress_eq (job_id : String) (now : Nat) :
    ∀ (us : List UpdateCall) (store : JobStore) (j : Job),
      List.lookup job_id store = some j →
      recordedProgress store job_id us now = progressTrace j.progress us := by
  intro us
  induction us with
  | nil =>
    intro store j h
    simp [recordedProgress, storeStates, progressTrace, List.scanl_nil, h]
  | cons u rest ih =>
    intro store j h
    have hup := lookup_applyCall store job_id u now
    rw [h] at hup
    have hnext := ih (applyCall store job_id u now)
      (applyJobFields j u.status u.progress u.message u.result now) (by simp [hup])
    have hfields : (applyJobFields j u.status u.progress u.message u.result now).progress
        = u.progress.getD j.progress := rfl
    calc recordedProgress store job_id (u :: rest) now
        = j.progress :: recordedProgress (applyCall store job_id u now) job_id rest now := by
          simp [recordedProgress, storeStates, List.scanl_cons, h]
      _ = j.progress :: progressTrace (u.progress.getD j.progress) rest := by
          rw [hnext, hfields]
      _ = progressTrace j.progress (u :: rest) := by
          simp [progressTrace, List.scanl_cons, progressStep]

/-! ### Claim theorems -/

/-- C1: with `redact_pii` enabled, `get_embeddings` hands the wrapped base
processor exactly the redacted form of the text — the output of
`_redact_text` over the processor's active patterns — so unredacted text
cannot reach the embedding capability through this entry point. -/
theorem get_embeddings_passes_redacted (p : PrivacyCompliantProcessor)
    (baseEmbed : String → List Int) (text : String) (h : p.redact_pii = true) :
    p.get_embeddings baseEmbed text = baseEmbed (redact_text p.patterns text).1 := by
  simp [PrivacyCompliantProcessor.get_embeddings, h]

/-- Witness for C1 at a concrete processor and text: the default
construction enables redaction, and the base embedder receives the
redacted string. -/
theorem get_embeddings_passes_redacted_witness :
    (mkPrivacyProcessor true none []).redact_pii = true ∧
      (mkPrivacyProcessor true none []).get_embeddings
          (fun s => [(s.length : Int)]) "Contact: a@b.com" =
        (fun s => [(s.length : Int)])
          (redact_text (mkPrivacyProcessor true none []).patterns "Contact: a@b.com").1 :=
  ⟨rfl, get_embeddings_passes_redacted (mkPrivacyProcessor true none [])
    (fun s => [(s.length : Int)]) "Contact: a@b.com" rfl⟩

/-- C3 counterexample: chunking the empty text yields one chunk (the empty
string), not zero chunks — `_split_text` returns `[text]` whenever
`len(text) <= chunk_size`, and the empty text always satisfies that. -/
theorem split_text_empty_counterexample :
    split_text "" 1024 128 = [""] ∧ split_text "" 1024 128 ≠ [] := by
  constructor
  · decide
  · decide

/-- C3 amended: chunking the empty text yields exactly one chunk containing
the empty string, for every chunk-size budget and overlap. -/
theorem split_text_empty (chunk_size chunk_overlap : Nat) :
    split_text "" chunk_size chunk_overlap = [""] := by
  simp [split_text]

/-- C4: the chunk records persisted by `TextProcessor.process` carry
`chunk_index` values exactly `0, 1, ..., n-1` in order, and every record's
`chunk_total` equals `n`, the number of records produced. -/
theorem chunk_indices_contiguous (content : String) (chunk_size chunk_overlap : Nat)
    (document_id : String) :
    (TextProcessor.processRecords content chunk_size chunk_overlap document_id).map
        ChunkRec.chunk_index =
      List.range
        (TextProcessor.processRecords content chunk_size chunk_overlap document_id).length ∧
      ∀ r ∈ TextProcessor.processRecords content chunk_size chunk_overlap document_id,
        r.chunk_total =
          (TextProcessor.processRecords content chunk_size chunk_overlap document_id).length := by
  constructor
  · rw [List.range_eq_range']
    unfold TextProcessor.processRecords processChunkRecords
    rw [chunkRecordsAux_length, chunkRecordsAux_map_index]
  · intro r hr
    unfold TextProcessor.processRecords processChunkRecords at hr ⊢
    rw [chunkRecordsAux_length]
    exact chunkRecordsAux_total document_id _ _ 0 r hr

/-- C7: redacting `"Contact: a@b.com"` with the default pattern set (which
enables the email pattern) yields `"Contact: [REDACTED:email]"` with
redaction counts recording exactly one email match. -/
theorem redact_email_scenario :
    redact_text (mkPrivacyProcessor true none []).patterns "Contact: a@b.com" =
      ("Contact: [REDACTED:email]", [("email", 1)]) := by
  decide

/-- C9: querying the status of a job id absent from the store raises the
typed `ValueError("Job not found: ...")`, never a default status object. -/
theorem get_status_unknown_id (store : JobStore) (job_id : String)
    (h : List.lookup job_id store = none) :
    get_status store job_id = Except.error ("Job not found: " ++ job_id) := by
  simp [get_status, h]

/-- Witness for C9: a store holding one job, queried for a different id. -/
theorem get_status_unknown_id_witness :
    List.lookup "missing" [("job1", freshJob "url" "http://e" 0)] = none ∧
      get_status [("job1", freshJob "url" "http://e" 0)] "missing" =
        Except.error ("Job not found: " ++ "missing") :=
  ⟨by decide, get_status_unknown_id [("job1", freshJob "url" "http://e" 0)] "missing"
    (by decide)⟩

/-- C10: the internal status update on an id absent from the store returns
without raising and leaves the store exactly as it was, whatever combination
of status, progress, message and result is supplied. -/
theorem update_job_status_unknown_id_noop (store : JobStore) (job_id : String)
    (status : Option String) (progress : Option Nat) (message : Option String)
    (result : Option ResData) (now : Nat)
    (h : List.lookup job_id store = none) :
    update_job_status store job_id status progress message result now = store := by
  simp [update_job_status, h]

/-- Witness for C10: a populated store is untouched by an update to an
unknown id carrying every kind of field. -/
theorem update_job_status_unknown_id_noop_witness :
    List.lookup "ghost" [("job1", freshJob "url" "http://e" 0)] = none ∧
      update_job_status [("job1", freshJob "url" "http://e" 0)] "ghost"
          (some "failed") (some 55) (some "boom") (some [("k", "v")]) 7 =
        [("job1", freshJob "url" "http://e" 0)] :=
  ⟨by decide, update_job_status_unknown_id_noop [("job1", freshJob "url" "http://e" 0)]
    "ghost" (some "failed") (some 55) (some "boom") (some [("k", "v")]) 7 (by decide)⟩

/-- C2 counterexample: a `_process_url` run that fails after the 30 %
milestone issues the handler update `status="failed", progress=0.0`, so the
store records the progress sequence `[0, 10, 30, 0]` — the failed transition
records a value lower than the last one, and the sequence is not
monotonically non-decreasing. -/
theorem progress_regresses_on_failure :
    recordedProgress [("job1", freshJob "url" "http://e" 0)] "job1"
        ((urlMilestones []).take 2 ++ [failureCall "URL processing failed: fetch error"]) 1 =
      [0, 10, 30, 0] ∧
      nonDecreasing
          (recordedProgress [("job1", freshJob "url" "http://e" 0)] "job1"
            ((urlMilestones []).take 2 ++ [failureCall "URL processing failed: fetch error"]) 1) =
        false := by
  constructor
  · decide
  · decide

lemma progressTrace_urlMilestones (res : ResData) :
    progressTrace 0 (urlMilestones res) = [0, 10, 30, 70, 100] := by
  simp [progressTrace, urlMilestones, progressStep, List.scanl_cons, List.scanl_nil]

lemma progressTrace_fileMilestones (res : ResData) :
    progressTrace 0 (fileMilestones res) = [0, 10, 30, 70, 100] := by
  simp [progressTrace, fileMilestones, progressStep, List.scanl_cons, List.scanl_nil]

lemma progressTrace_textMilestones (res : ResData) :
    progressTrace 0 (textMilestones res) = [0, 30, 70, 100] := by
  simp [progressTrace, textMilestones, progressStep, List.scanl_cons, List.scanl_nil]

lemma progressTrace_privacyMilestones (res : ResData) :
    progressTrace 0 (privacyMilestones res) = [0, 10, 70, 100] := by
  simp [progressTrace, privacyMilestones, progressStep, List.scanl_cons, List.scanl_nil]

/-- C2 amended: recorded progress stays within `[0, 100]` on every flow, and
is monotonically non-decreasing along each of the four success paths; the
failure handler, however, always records progress `0.0`, which may be lower
than the last recorded value (see the counterexample). -/
theorem progress_monotone_happy_paths (store : JobStore) (job_id : String) (j : Job)
    (now : Nat) (res : ResData) (msg : String)
    (hj : List.lookup job_id store = some j) (h0 : j.progress = 0) :
    (∀ tr ∈ [urlMilestones res, fileMilestones res, textMilestones res,
        privacyMilestones res],
      nonDecreasing (recordedProgress store job_id tr now) = true ∧
        ∀ p ∈ recordedProgress store job_id tr now, p ≤ 100) ∧
      (failureCall msg).progress = some 0 := by
  constructor
  · intro tr htr
    have hrw := recordedProgress_eq job_id now tr store j hj
    rw [h0] at hrw
    simp only [List.mem_cons, List.mem_singleton] at htr
    rcases htr with h | h | h | h | h
    · rw [h] at hrw ⊢
      rw [hrw, progressTrace_urlMilestones]
      refine ⟨by decide, by decide⟩
    · rw [h] at hrw ⊢
      rw [hrw, progressTrace_fileMilestones]
      refine ⟨by decide, by decide⟩
    · rw [h] at hrw ⊢
      rw [hrw, progressTrace_textMilestones]
      refine ⟨by decide, by decide⟩
    · rw [h] at hrw ⊢
      rw [hrw, progressTrace_privacyMilestones]
      refine ⟨by decide, by decide⟩
    · simp at h
  · rfl

/-- Witness for C2's amended statement at a concrete one-job store. -/
theorem progress_monotone_happy_paths_witness :
    List.lookup "job1" [("job1", freshJob "url" "http://e" 0)] =
        some (freshJob "url" "http://e" 0) ∧
      (freshJob "url" "http://e" 0).progress = 0 ∧
      ((∀ tr ∈ [urlMilestones [("document_id", "d1")],
          fileMilestones [("document_id", "d1")],
          textMilestones [("document_id", "d1")],
          privacyMilestones [("document_id", "d1")]],
        nonDecreasing
            (recordedProgress [("job1", freshJob "url" "http://e" 0)] "job1" tr 1) = true ∧
          ∀ p ∈ recordedProgress [("job1", freshJob "url" "http://e" 0)] "job1" tr 1,
            p ≤ 100) ∧
        (failureCall "URL processing failed: boom").progress = some 0) :=
  ⟨by decide, rfl,
    progress_monotone_happy_paths [("job1", freshJob "url" "http://e" 0)] "job1"
      (freshJob "url" "http://e" 0) 1 [("document_id", "d1")]
      "URL processing failed: boom" (by decide) rfl⟩

/-- C5 counterexample: on content matching no sniffing heuristic (and a
declared content type outside the mapping), `get_optimal_processor` does not
raise a "no processor available" error — it returns the default
`TextProcessor`. -/
theorem sniffing_returns_default_counterexample :
    looksHtml "zzz" = false ∧ looksJson "zzz" = false ∧ looksCsv "zzz" = false ∧
      looksMarkdownSniff "zzz" = false ∧ looksCode "zzz" = false ∧
      List.lookup "application/octet-stream" CONTENT_TYPE_MAPPING = none ∧
      get_optimal_processor_str (some "application/octet-stream") "zzz" = ProcKind.text ∧
      get_optimal_processor_str none "zzz" = ProcKind.text := by
  refine ⟨by decide, by decide, by decide, by decide, by decide, by decide,
    by decide, by decide⟩

/-- C5 amended: the extension and content-type lookups raise the typed
`ValueError("No processor available ...")` on a miss, but content sniffing
is never inconclusive — when every heuristic fails, `get_optimal_processor`
returns the default `TextProcessor` instead of raising. -/
theorem processor_selection_amended (file_path content_type content : String)
    (hext : List.lookup (toLowerStr (pathSuffix file_path)) EXTENSION_MAPPING = none)
    (hct : List.lookup content_type CONTENT_TYPE_MAPPING = none)
    (h1 : looksHtml content = false) (h2 : looksJson content = false)
    (h3 : looksCsv content = false) (h4 : looksMarkdownSniff content = false)
    (h5 : looksCode content = false) :
    get_processor_for_file file_path =
        Except.error ("No processor available for file type: " ++
          toLowerStr (pathSuffix file_path)) ∧
      get_processor_for_content_type content_type =
        Except.error ("No processor available for content type: " ++ content_type) ∧
      get_optimal_processor_str (some content_type) content = ProcKind.text ∧
      get_optimal_processor_str none content = ProcKind.text := by
  refine ⟨?_, ?_, ?_, ?_⟩
  · simp [get_processor_for_file, hext]
  · simp [get_processor_for_content_type, hct]
  · simp [get_optimal_processor_str, hct, sniffStr, h1, h2, h3, h4, h5]
  · simp [get_optimal_processor_str, sniffStr, h1, h2, h3, h4, h5]

/-- Witness for C5's amended statement at a concrete unmatched extension,
content type and content. -/
theorem processor_selection_amended_witness :
    List.lookup (toLowerStr (pathSuffix "file.zzz")) EXTENSION_MAPPING = none ∧
      List.lookup "application/x-zzz" CONTENT_TYPE_MAPPING = none ∧
      (get_processor_for_file "file.zzz" =
          Except.error ("No processor available for file type: " ++
            toLowerStr (pathSuffix "file.zzz")) ∧
        get_processor_for_content_type "application/x-zzz" =
          Except.error ("No processor available for content type: " ++
            "application/x-zzz") ∧
        get_optimal_processor_str (some "application/x-zzz") "zzz" = ProcKind.text ∧
        get_optimal_processor_str none "zzz" = ProcKind.text) :=
  ⟨by decide, by decide,
    processor_selection_amended "file.zzz" "application/x-zzz" "zzz" (by decide)
      (by decide) (by decide) (by decide) (by decide) (by decide) (by decide)⟩

/-- C8 counterexample: the headers are extracted as the scenario says, but
with the processor's default budget (1024) the 43-character text fits in one
chunk — `_structure_aware_split` returns the whole text as a single chunk,
not "at least two". -/
theorem markdown_scenario_counterexample :
    extract_headers demoMarkdown = [(1, "Title"), (2, "Section")] ∧
      structure_aware_split demoMarkdown 1024 128 = [demoMarkdown] ∧
      ¬ 2 ≤ (structure_aware_split demoMarkdown 1024 128).length := by
  refine ⟨by decide, by decide, by decide⟩

/-- C8 amended: header extraction yields `[(1, "Title"), (2, "Section")]`,
and structure-aware chunking at the default budget yields exactly one chunk
— the whole text, which contains both "Body text." and "More text.". -/
theorem markdown_scenario_amended :
    extract_headers demoMarkdown = [(1, "Title"), (2, "Section")] ∧
      structure_aware_split demoMarkdown 1024 128 = [demoMarkdown] ∧
      strContains demoMarkdown "Body text." = true ∧
      strContains demoMarkdown "More text." = true := by
  refine ⟨by decide, by decide, by decide, by decide⟩

end ConTXT
